import Mathlib

/-!
Verification development for the Face repository (`src/script.js`).

The script is a browser client: it acquires a face image (file upload or
camera frame), POSTs it to `/analyze`, and renders the parsed JSON answer
into the page's result / error / loading / camera regions.  Below we give a
shallow embedding of that script: JavaScript values that matter to control
flow are modelled by `JSValue` with explicit truthiness, the DOM regions and
camera bookkeeping by `UIState`, the event handlers by pure state
transformers, and the network by an explicit log of issued `Request`s plus
an environment-chosen `HttpOutcome` per settlement.
-/

namespace Face

/-- A JavaScript value as far as the script's control flow observes one:
the handler tests `data.error`, `data.success` and `data.message` only for
truthiness and otherwise coerces them to text.  Numbers are modelled by `Rat`
(the script performs no arithmetic that could produce `NaN`/`Infinity` on the
fields fed through this type). -/
inductive JSValue where
  | undefined : JSValue
  | null : JSValue
  | bool (b : Bool) : JSValue
  | num (n : Rat) : JSValue
  | str (s : String) : JSValue
deriving DecidableEq

/-- JavaScript truthiness: `undefined`, `null`, `false`, `0` and `""` are
falsy, everything else this model can represent is truthy. -/
def truthy : JSValue → Bool
  | .undefined => false
  | .null => false
  | .bool b => b
  | .num n => n != 0
  | .str s => s != ""

/-- The text a value shows as when assigned to `textContent` (string
coercion).  Numeric display uses `Rat`'s printer; no claim inspects the
display of a numeric error/message, so this approximation is harmless. -/
def jsToDisplay : JSValue → String
  | .undefined => "undefined"
  | .null => "null"
  | .bool b => if b then "true" else "false"
  | .num n => toString n
  | .str s => s

/-- The five measurement fields interpolated into the result template
(`src/script.js:196-212`).  The handler only splices them into text, so they
are modelled by their display strings. -/
structure Measurements where
  face_height : String
  face_width_top : String
  face_width_middle : String
  face_width_bottom : String
  width_to_height_ratio : String
deriving DecidableEq

/-- The parsed `/analyze` JSON body as `handleAnalysisResult` reads it.
`error`, `success`, `message` are kept as raw `JSValue`s because the code
tests them by truthiness; `face_shape` and `measurements` are `Option`s
because dereferencing them when absent throws a `TypeError`; `description`
and `image_with_landmarks` are only ever spliced into text. -/
structure AnalysisData where
  error : JSValue
  success : JSValue
  message : JSValue
  face_shape : Option String
  description : String
  image_with_landmarks : String
  measurements : Option Measurements
  confidence : Rat
deriving DecidableEq

/-- The observable DOM/JS state the script mutates: visibility of the four
regions (a region is visible iff its `d-none` class is absent), the error
region's text, the result region's innerHTML, the camera bookkeeping
(`isCameraActive`, the `stream` variable, `video.srcObject`) and the capture
button's label and colour class. -/
structure UIState where
  loadingVisible : Bool
  errorVisible : Bool
  resultVisible : Bool
  cameraVisible : Bool
  errorText : String
  resultHTML : String
  isCameraActive : Bool
  stream : Bool
  videoSrc : Bool
  captureBtnLabel : String
  captureBtnDanger : Bool
deriving DecidableEq

/-- Modelled from the spec: the page's initial Idle state (the HTML template
is not part of `src/`); the loading, error, result and camera regions all
start hidden, no stream is held, and the capture button reads "Use Camera"
in its primary colour. -/
def initUI : UIState :=
  { loadingVisible := false
    errorVisible := false
    resultVisible := false
    cameraVisible := false
    errorText := ""
    resultHTML := ""
    isCameraActive := false
    stream := false
    videoSrc := false
    captureBtnLabel := "Use Camera"
    captureBtnDanger := false }

/-- `showLoading` (`src/script.js:233-237`): show the spinner, hide the
error and result regions. -/
def showLoading (ui : UIState) : UIState :=
  { ui with loadingVisible := true, errorVisible := false, resultVisible := false }

/-- `hideLoading` (`src/script.js:240-242`). -/
def hideLoading (ui : UIState) : UIState :=
  { ui with loadingVisible := false }

/-- `showError` (`src/script.js:245-249`): hide the spinner, set the error
region's text, unhide the error region.  Note it touches neither the result
region nor the camera region. -/
def showError (message : String) (ui : UIState) : UIState :=
  let ui := hideLoading ui
  { ui with errorText := message, errorVisible := true }

/-- `stopCamera` (`src/script.js:97-111`): when a stream is held, stop its
tracks, detach `video.srcObject` and clear `stream`; then unconditionally
clear `isCameraActive`, hide the camera region and restore the capture
button. -/
def stopCamera (ui : UIState) : UIState :=
  let ui := if ui.stream then { ui with videoSrc := false, stream := false } else ui
  { ui with isCameraActive := false
            cameraVisible := false
            captureBtnLabel := "Use Camera"
            captureBtnDanger := false }

/-- Successful branch of `startCamera` (`src/script.js:75-86`): keep the
stream, attach it to the video element, mark the camera active, show the
camera region and turn the capture button into a danger-coloured Cancel. -/
def cameraGranted (ui : UIState) : UIState :=
  { ui with stream := true
            videoSrc := true
            isCameraActive := true
            cameraVisible := true
            captureBtnLabel := "Cancel"
            captureBtnDanger := true }

/-- User-facing message of the upload validation branch (`src/script.js:25`). -/
def uploadValidationMsg : String := "Please select an image file (jpg, png, etc.)"

/-- User-facing message of the camera-acquisition failure branch (`src/script.js:89`). -/
def cameraDeniedMsg : String :=
  "Could not access the camera. Please check permissions or use the file upload option."

/-- User-facing message when the host lacks `getUserMedia` (`src/script.js:92`). -/
def cameraUnsupportedMsg : String :=
  "Your browser does not support camera access. Please use the file upload option."

/-- User-facing message of both fetch `catch` branches (`src/script.js:141,158`). -/
def transportErrorMsg : String :=
  "An error occurred while processing the image. Please try again."

/-- Fixed fallback shown when `success` is falsy and `message` is falsy
(`src/script.js:173`). -/
def defaultAnalysisErrorMsg : String :=
  "An unknown error occurred during face analysis."

/-- `Math.round` as the script uses it on `data.confidence * 100`
(`src/script.js:217`): round half towards positive infinity. -/
def mathRound (x : Rat) : Int := ⌊x + 1/2⌋

/-- JavaScript's `String.prototype.toUpperCase` (used on `data.face_shape`,
`src/script.js:189`), character-wise upper-casing. -/
def toUpperCase (s : String) : String := String.mk (s.data.map Char.toUpper)

/-- A thrown JavaScript exception; the only throw the embedded code can
produce is the `TypeError` from dereferencing a missing field. -/
inductive JSError where
  | typeError
deriving DecidableEq

/-- Result template (`src/script.js:178-223`), text before the
`image_with_landmarks` splice. -/
def resultSegHead : String := "
            <div class=\"card mb-4\">
                <div class=\"card-header\">
                    <h3 class=\"mb-0\">Face Shape Analysis Result</h3>
                </div>
                <div class=\"card-body\">
                    <div class=\"row\">
                        <div class=\"col-md-6\">
                            <img src=\""

/-- Result template, text between the image splice and the upper-cased
`face_shape` splice. -/
def resultSegShape : String := "\" alt=\"Face with landmarks\" class=\"img-fluid mb-3\">
                        </div>
                        <div class=\"col-md-6\">
                            <h4 class=\"text-primary\">Your Face Shape: <span class=\"badge bg-primary\">"

/-- Result template, text between the face-shape splice and the
`description` splice. -/
def resultSegDescription : String := "</span></h4>
                            <p>"

/-- Result template, text between the description splice and the
`measurements.face_height` splice. -/
def resultSegHeight : String := "</p>

                            <h5 class=\"mt-4\">Face Measurements:</h5>
                            <ul class=\"list-group\">
                                <li class=\"list-group-item d-flex justify-content-between align-items-center\">
                                    Face Height
                                    <span class=\"badge bg-secondary rounded-pill\">"

/-- Result template, text between the face-height splice and the
`measurements.face_width_top` splice. -/
def resultSegForehead : String := "</span>
                                </li>
                                <li class=\"list-group-item d-flex justify-content-between align-items-center\">
                                    Forehead Width
                                    <span class=\"badge bg-secondary rounded-pill\">"

/-- Result template, text between the forehead-width splice and the
`measurements.face_width_middle` splice. -/
def resultSegCheekbone : String := "</span>
                                </li>
                                <li class=\"list-group-item d-flex justify-content-between align-items-center\">
                                    Cheekbone Width
                                    <span class=\"badge bg-secondary rounded-pill\">"

/-- Result template, text between the cheekbone-width splice and the
`measurements.face_width_bottom` splice. -/
def resultSegJawline : String := "</span>
                                </li>
                                <li class=\"list-group-item d-flex justify-content-between align-items-center\">
                                    Jawline Width
                                    <span class=\"badge bg-secondary rounded-pill\">"

/-- Result template, text between the jawline-width splice and the
`measurements.width_to_height_ratio` splice. -/
def resultSegWidthHeight : String := "</span>
                                </li>
                                <li class=\"list-group-item d-flex justify-content-between align-items-center\">
                                    Width-to-Height Ratio
                                    <span class=\"badge bg-secondary rounded-pill\">"

/-- Result template, text between the ratio splice and the rounded
confidence splice. -/
def resultSegConfidence : String := "</span>
                                </li>
                            </ul>

                            <div class=\"alert alert-info mt-3\">
                                <strong>Analysis Confidence:</strong> "

/-- Result template, closing text after the literal percent sign that
follows the confidence splice. -/
def resultSegTail : String := "
                            </div>
                        </div>
                    </div>
                </div>
            </div>
        "

/-- The interpolated `resultContainer.innerHTML` template
(`src/script.js:178-223`): splices, in order, the annotated image reference,
`face_shape.toUpperCase()`, the description, the five measurement fields and
`Math.round(confidence * 100)` followed by a percent sign. -/
def successHTML (image_with_landmarks : String) (face_shape : String)
    (description : String) (m : Measurements) (confidence : Rat) : String :=
  resultSegHead ++ image_with_landmarks ++ resultSegShape ++ toUpperCase face_shape
    ++ resultSegDescription ++ description
    ++ resultSegHeight ++ m.face_height
    ++ resultSegForehead ++ m.face_width_top
    ++ resultSegCheekbone ++ m.face_width_middle
    ++ resultSegJawline ++ m.face_width_bottom
    ++ resultSegWidthHeight ++ m.width_to_height_ratio
    ++ resultSegConfidence ++ toString (mathRound (confidence * 100)) ++ "%"
    ++ resultSegTail

/-- `handleAnalysisResult` (`src/script.js:163-230`).  It hides the spinner,
then tests `data.error` and `data.success` by truthiness; on the success
path the template literal dereferences `data.face_shape.toUpperCase()` and
`data.measurements.face_height` (etc.), so a missing `face_shape` or
`measurements` throws a `TypeError` before the result region is filled or
unhidden (`face_shape` is spliced first, so it throws first). -/
def handleAnalysisResult (data : AnalysisData) (ui : UIState) : Except JSError UIState :=
  let ui := hideLoading ui
  if truthy data.error then
    .ok (showError (jsToDisplay data.error) ui)
  else if !truthy data.success then
    .ok (showError
      (if truthy data.message then jsToDisplay data.message else defaultAnalysisErrorMsg) ui)
  else
    match data.face_shape with
    | none => .error .typeError
    | some shape =>
      match data.measurements with
      | none => .error .typeError
      | some m =>
        .ok { ui with
              resultHTML := successHTML data.image_with_landmarks shape data.description
                m data.confidence
              resultVisible := true }

/-- What the `<video>` element reports when a frame is sampled: its intrinsic
dimensions and (abstractly) the current frame's pixel content. -/
structure VideoState where
  videoWidth : Nat
  videoHeight : Nat
  frame : String
deriving DecidableEq

/-- `capturePhoto` (`src/script.js:114-126`): the canvas is resized to the
video's reported dimensions, the current frame is drawn, and
`canvas.toDataURL('image/jpeg')` is returned.  Per the HTML standard,
`drawImage` on a non-streaming video draws nothing and does not throw, and
`toDataURL` on a canvas whose width or height is zero returns the fixed
string "data:,"; on a non-degenerate canvas it returns a JPEG data URI whose
exact base64 payload we abstract by the frame content. -/
def capturePhoto (v : VideoState) : String :=
  if v.videoWidth = 0 ∨ v.videoHeight = 0 then "data:,"
  else "data:image/jpeg;base64," ++ v.frame

/-- A character `encodeURIComponent` leaves unescaped: ASCII letters,
digits, and `- _ . ! ~ * ( )` plus the apostrophe (code 39). -/
def isUnreservedURIChar (c : Char) : Bool :=
  c.isAlpha || c.isDigit || "-_.!~*()".toList.contains c || c == Char.ofNat 39

/-- Upper-case hexadecimal digit for `n < 16`. -/
def hexDigit (n : Nat) : Char :=
  Char.ofNat (if n < 10 then 48 + n else 55 + n)

/-- A single percent-escaped byte, e.g. byte 44 becomes "%2C". -/
def percentByte (b : Nat) : String :=
  String.mk [Char.ofNat 37, hexDigit (b / 16), hexDigit (b % 16)]

/-- UTF-8 encoding of one code point, as the bytes `encodeURIComponent`
escapes. -/
def utf8Bytes (c : Char) : List Nat :=
  let n := c.toNat
  if n < 128 then [n]
  else if n < 2048 then [192 + n / 64, 128 + n % 64]
  else if n < 65536 then [224 + n / 4096, 128 + n / 64 % 64, 128 + n % 64]
  else [240 + n / 262144, 128 + n / 4096 % 64, 128 + n / 64 % 64, 128 + n % 64]

/-- JavaScript's `encodeURIComponent` (used at `src/script.js:152`): keep
unreserved characters, percent-escape every UTF-8 byte of the rest. -/
def encodeURIComponent (s : String) : String :=
  String.join (s.data.map fun c =>
    if isUnreservedURIChar c then String.singleton c
    else String.join ((utf8Bytes c).map percentByte))

/-- A selected file as the upload handler observes it: its declared MIME
type and its raw bytes (the latter travel opaquely inside `FormData`). -/
structure JSFile where
  type : String
  bytes : List Nat
deriving DecidableEq

/-- The body of a request to `/analyze`: either a multipart form carrying
named file fields, or a URL-encoded string body. -/
inductive RequestBody where
  | multipart (fields : List (String × JSFile))
  | urlencoded (body : String)
deriving DecidableEq

/-- An HTTP request as issued by `fetch`. -/
structure Request where
  url : String
  method : String
  body : RequestBody
deriving DecidableEq

/-- The request built by `processImageFile` (`src/script.js:129-136`):
`POST /analyze` with a `FormData` body whose field `image` is the raw file. -/
def processImageFile (file : JSFile) : Request :=
  { url := "/analyze", method := "POST", body := .multipart [("image", file)] }

/-- The request built by `processImageData` (`src/script.js:146-153`):
`POST /analyze`, `application/x-www-form-urlencoded`, body
`image_data=` followed by the percent-encoded data URI. -/
def processImageData (imageData : String) : Request :=
  { url := "/analyze", method := "POST",
    body := .urlencoded ("image_data=" ++ encodeURIComponent imageData) }

/-- Whether `pat` occurs as a contiguous run inside `l`. -/
def containsSub (l pat : List Char) : Bool :=
  match l with
  | [] => pat.isEmpty
  | _ :: t => pat.isPrefixOf l || containsSub t pat

/-- Truthiness of `file.type.match('image.*')` (`src/script.js:24`): the
unanchored regular expression `image.*` matches exactly when the string
contains "image" somewhere (the `.*` part always matches, possibly empty). -/
def imageTypeMatch (t : String) : Bool :=
  containsSub t.data "image".data

/-- Result of `response.json()` on a settled HTTP response: the body either
fails to parse or yields an `AnalysisData`. -/
inductive BodyParse where
  | malformed
  | ok (data : AnalysisData)
deriving DecidableEq

/-- How one `fetch('/analyze', ...)` settles, as chosen by the environment:
outright network failure, or an HTTP response with a status code and a body. -/
inductive HttpOutcome where
  | networkFailure
  | response (status : Nat) (body : BodyParse)
deriving DecidableEq

/-- The shared promise chain of `processImageFile` and `processImageData`
(`src/script.js:133-142,147-159`): `fetch` rejects only on network failure
(an HTTP error status still resolves, and the code never reads
`response.ok` or `response.status`); `response.json()` rejects on a
malformed body; a `TypeError` thrown inside `handleAnalysisResult` also
lands in the trailing `catch`.  Every rejection runs
`showError(transportErrorMsg)`; since `showError` itself re-hides the
spinner, the partial `hideLoading` performed before a handler throw leaves
the same final state as applying `showError` to the pre-settlement state. -/
def settleResponse (o : HttpOutcome) (ui : UIState) : UIState :=
  match o with
  | .networkFailure => showError transportErrorMsg ui
  | .response _status body =>
    match body with
    | .malformed => showError transportErrorMsg ui
    | .ok data =>
      match handleAnalysisResult data ui with
      | .ok ui' => ui'
      | .error _ => showError transportErrorMsg ui

/-- The whole page: the DOM/JS state, the number of in-flight `/analyze`
requests, and the log of requests issued so far. -/
structure SysState where
  ui : UIState
  pending : Nat
  sent : List Request
deriving DecidableEq

/-- How a `getUserMedia` request settles, as chosen by the environment; the
`unsupported` case is the host lacking `navigator.mediaDevices`. -/
inductive CameraStart where
  | granted
  | denied
  | unsupported
deriving DecidableEq

/-- The user/environment events the script reacts to
(`src/script.js:19-69`): a change on the file input, a click on the capture
toggle button (with the environment's answer to `getUserMedia`), a click on
the capture-photo button (with the video element's current state), a click
on cancel, and the settlement of one in-flight request. -/
inductive Event where
  | fileSelected (files : List JSFile)
  | captureToggle (cam : CameraStart)
  | capturePhotoClick (v : VideoState)
  | cancelCapture
  | settle (o : HttpOutcome)
deriving DecidableEq

/-- One event-handler execution, straight from the listeners in
`src/script.js`: the upload listener (lines 19-35) validates the MIME type
before showing the spinner and issuing `processImageFile`; the toggle
button (lines 38-46) stops the camera when active and otherwise runs
`startCamera` (lines 72-94); the capture button (lines 49-62) samples a
photo, stops the camera, shows the spinner and issues `processImageData`;
cancel (lines 65-69) stops the camera; a settlement runs the promise
chain, and can only occur while a request is in flight. -/
def step (s : SysState) : Event → SysState
  | .fileSelected files =>
    match files with
    | [] => s
    | file :: _ =>
      if imageTypeMatch file.type then
        { s with ui := showLoading s.ui
                 pending := s.pending + 1
                 sent := s.sent ++ [processImageFile file] }
      else
        { s with ui := showError uploadValidationMsg s.ui }
  | .captureToggle cam =>
    if s.ui.isCameraActive then
      { s with ui := stopCamera s.ui }
    else
      match cam with
      | .granted => { s with ui := cameraGranted s.ui }
      | .denied => { s with ui := showError cameraDeniedMsg s.ui }
      | .unsupported => { s with ui := showError cameraUnsupportedMsg s.ui }
  | .capturePhotoClick v =>
    if s.ui.isCameraActive then
      { s with ui := showLoading (stopCamera s.ui)
               pending := s.pending + 1
               sent := s.sent ++ [processImageData (capturePhoto v)] }
    else s
  | .cancelCapture => { s with ui := stopCamera s.ui }
  | .settle o =>
    if s.pending = 0 then s
    else { s with ui := settleResponse o s.ui, pending := s.pending - 1 }

/-- The page as loaded: initial UI, nothing in flight, nothing sent. -/
def initSys : SysState := { ui := initUI, pending := 0, sent := [] }

/-- Run a sequence of events from the freshly loaded page. -/
def run (events : List Event) : SysState := events.foldl step initSys

/-- Concrete measurement payload used for instantiating theorems. -/
def exM : Measurements :=
  { face_height := "10.5"
    face_width_top := "8.2"
    face_width_middle := "9.1"
    face_width_bottom := "7.4"
    width_to_height_ratio := "0.87" }

/-- A concrete successful `/analyze` response: the spec's worked example
with `confidence` 0.873 and `face_shape` "oval". -/
def exData : AnalysisData :=
  { error := .undefined
    success := .bool true
    message := .undefined
    face_shape := some "oval"
    description := "Oval faces are well balanced."
    image_with_landmarks := "data:image/png;base64,AAA"
    measurements := some exM
    confidence := 873/1000 }

/-- A response whose `error` field is present but empty, with a falsy
`success` and a non-empty `message`. -/
def c1Data : AnalysisData :=
  { error := .str ""
    success := .bool false
    message := .str "from message"
    face_shape := none
    description := ""
    image_with_landmarks := ""
    measurements := none
    confidence := 0 }

/-- A response with a truthy `error` field. -/
def boomData : AnalysisData :=
  { error := .str "boom"
    success := .bool true
    message := .undefined
    face_shape := some "oval"
    description := ""
    image_with_landmarks := ""
    measurements := some exM
    confidence := 1/2 }

/-- A well-formed response with `success` true but no `face_shape`. -/
def shapelessData : AnalysisData :=
  { error := .undefined
    success := .bool true
    message := .undefined
    face_shape := none
    description := "d"
    image_with_landmarks := "i"
    measurements := some exM
    confidence := 1/2 }

/-- A concrete uploaded PNG file. -/
def pngFile : JSFile := { type := "image/png", bytes := [137, 80, 78, 71] }

/-- A concrete non-image file. -/
def textFile : JSFile := { type := "text/plain", bytes := [104, 105] }

/-- A video element that is attached but not yet streaming: it reports zero
intrinsic dimensions. -/
def zeroVideo : VideoState := { videoWidth := 0, videoHeight := 0, frame := "" }

/-- A streaming video element. -/
def liveVideo : VideoState := { videoWidth := 640, videoHeight := 480, frame := "FRAME" }

/-- The page right after the camera was toggled on and `getUserMedia`
succeeded. -/
def sysCam : SysState := step initSys (.captureToggle .granted)

/-- Event sequence refuting global region exclusivity: a successful upload
analysis renders the result, then a camera toggle whose `getUserMedia` is
denied settles with `showError`, which does not hide the result region. -/
def c4Events : List Event :=
  [.fileSelected [pngFile],
   .settle (.response 200 (.ok exData)),
   .captureToggle .denied]

theorem strAppendAssoc (a b c : String) : a ++ b ++ c = a ++ (b ++ c) := by
  cases a
  cases b
  cases c
  exact congrArg String.mk (List.append_assoc ..)

/-- C7: the camera release operation `stopCamera` is idempotent — from any
state, running it twice leaves exactly the state of running it once (the
embedding is total, so no error is ever raised) — and after one run the
stream reference is cleared, the active flag is false and the camera region
is hidden. -/
theorem stopCameraIdempotent (ui : UIState) :
    stopCamera (stopCamera ui) = stopCamera ui
    ∧ (stopCamera ui).stream = false
    ∧ (stopCamera ui).isCameraActive = false
    ∧ (stopCamera ui).cameraVisible = false := by
  unfold stopCamera
  cases h : ui.stream <;> simp [h]

/-- C3: a selected file whose declared MIME type does not match the image
pattern makes the upload listener show the validation error and return: the
request log and the pending count are untouched (no network call) and the
loading region is not shown. -/
theorem uploadRejectsNonImage (s : SysState) (file : JSFile) (rest : List JSFile)
    (h : imageTypeMatch file.type = false) :
    (step s (.fileSelected (file :: rest))).sent = s.sent
    ∧ (step s (.fileSelected (file :: rest))).pending = s.pending
    ∧ (step s (.fileSelected (file :: rest))).ui.loadingVisible = false
    ∧ (step s (.fileSelected (file :: rest))).ui.errorVisible = true
    ∧ (step s (.fileSelected (file :: rest))).ui.errorText = uploadValidationMsg := by
  simp [step, h, showError, hideLoading]

/-- Witness for C3: a `text/plain` file on the fresh page. -/
theorem uploadRejectsNonImage_witness :
    (step initSys (.fileSelected [textFile])).sent = initSys.sent
    ∧ (step initSys (.fileSelected [textFile])).pending = initSys.pending
    ∧ (step initSys (.fileSelected [textFile])).ui.loadingVisible = false
    ∧ (step initSys (.fileSelected [textFile])).ui.errorVisible = true
    ∧ (step initSys (.fileSelected [textFile])).ui.errorText = uploadValidationMsg :=
  uploadRejectsNonImage initSys textFile [] (by decide)

/-- C10: `data.error` is tested by truthiness, so a response whose `error`
is any falsy value (empty string, 0, null or false) is handled exactly like
one with no `error` field at all: the handler falls through to the
`success` check. -/
theorem falsyErrorFallsThrough (data : AnalysisData) (ui : UIState)
    (h : data.error = .str "" ∨ data.error = .num 0 ∨ data.error = .null
      ∨ data.error = .bool false) :
    handleAnalysisResult data ui
      = handleAnalysisResult { data with error := JSValue.undefined } ui := by
  rcases h with h | h | h | h <;> simp [handleAnalysisResult, truthy, h]

/-- Witness for C10: an empty-string `error` with a falsy `success` is
handled exactly like an absent `error`. -/
theorem falsyErrorFallsThrough_witness :
    handleAnalysisResult c1Data initUI
      = handleAnalysisResult { c1Data with error := JSValue.undefined } initUI :=
  falsyErrorFallsThrough c1Data initUI (Or.inl rfl)

/-- C9: on the success path (falsy `error`, truthy `success`) the handler
dereferences `face_shape` and `measurements` unconditionally, so a
well-formed response missing either field throws a `TypeError` instead of
reaching a rendered result or error state. -/
theorem successRenderThrowsOnMissingFields (data : AnalysisData) (ui : UIState)
    (he : truthy data.error = false) (hs : truthy data.success = true)
    (h : data.face_shape = none ∨ data.measurements = none) :
    handleAnalysisResult data ui = .error .typeError := by
  rcases h with h | h
  · simp [handleAnalysisResult, he, hs, h]
  · cases hfs : data.face_shape <;> simp [handleAnalysisResult, he, hs, h, hfs]

/-- Witness for C9: `{success: true}` with no `face_shape` throws. -/
theorem successRenderThrowsOnMissingFields_witness :
    handleAnalysisResult shapelessData initUI = .error .typeError :=
  successRenderThrowsOnMissingFields shapelessData initUI (by decide) (by decide)
    (Or.inl rfl)

/-- C8: the wire encoding is fixed by the source kind — an accepted upload
issues a multipart `POST /analyze` whose field `image` carries the raw
file, and a camera capture issues a URL-encoded `POST /analyze` whose body
is `image_data=` followed by the percent-encoded data URI of the captured
frame. -/
theorem wireEncodingBySourceKind (s : SysState) (file : JSFile) (rest : List JSFile)
    (v : VideoState) (hf : imageTypeMatch file.type = true)
    (hc : s.ui.isCameraActive = true) :
    (step s (.fileSelected (file :: rest))).sent
      = s.sent ++ [{ url := "/analyze", method := "POST",
                     body := .multipart [("image", file)] }]
    ∧ (step s (.capturePhotoClick v)).sent
      = s.sent ++ [{ url := "/analyze", method := "POST",
                     body := .urlencoded
                       ("image_data=" ++ encodeURIComponent (capturePhoto v)) }] := by
  constructor
  · simp [step, hf, processImageFile]
  · simp [step, hc, processImageData]

/-- Witness for C8: a PNG upload and a live-camera capture from the
camera-active page. -/
theorem wireEncodingBySourceKind_witness :
    (step sysCam (.fileSelected [pngFile])).sent
      = sysCam.sent ++ [{ url := "/analyze", method := "POST",
                          body := .multipart [("image", pngFile)] }]
    ∧ (step sysCam (.capturePhotoClick liveVideo)).sent
      = sysCam.sent ++ [{ url := "/analyze", method := "POST",
                          body := .urlencoded
                            ("image_data=" ++ encodeURIComponent (capturePhoto liveVideo)) }] :=
  wireEncodingBySourceKind sysCam pngFile [] liveVideo (by decide) (by decide)

/-- C2: on a successful response (falsy `error`, truthy `success`, fields
present) the handler renders the result region visible with HTML that
contains the upper-cased face-shape label and the confidence rendered as
`Math.round(confidence * 100)` followed by a percent sign; at the spec's
example values, confidence 0.873 renders as "87" before the percent sign
and face shape "oval" renders as "OVAL". -/
theorem successRenderShowsShapeAndConfidence (data : AnalysisData) (ui : UIState)
    (shape : String) (m : Measurements)
    (he : truthy data.error = false) (hs : truthy data.success = true)
    (hfs : data.face_shape = some shape) (hm : data.measurements = some m) :
    (∃ ui2, handleAnalysisResult data ui = .ok ui2
      ∧ ui2.resultVisible = true
      ∧ (∃ p q, ui2.resultHTML = p ++ toUpperCase shape ++ q)
      ∧ (∃ p q, ui2.resultHTML
          = p ++ (toString (mathRound (data.confidence * 100)) ++ "%") ++ q))
    ∧ toString (mathRound ((873 : Rat)/1000 * 100)) = "87"
    ∧ toUpperCase "oval" = "OVAL" := by
  have h87 : mathRound ((873 : Rat)/1000 * 100) = 87 := by
    unfold mathRound
    rw [Int.floor_eq_iff]
    norm_num
  have hmain : handleAnalysisResult data ui = .ok
      { hideLoading ui with
        resultHTML := successHTML data.image_with_landmarks shape data.description
          m data.confidence
        resultVisible := true } := by
    simp [handleAnalysisResult, he, hs, hfs, hm]
  refine ⟨⟨_, hmain, rfl, ?_, ?_⟩, by rw [h87]; decide, by decide⟩
  · refine ⟨resultSegHead ++ data.image_with_landmarks ++ resultSegShape,
      resultSegDescription ++ data.description
        ++ resultSegHeight ++ m.face_height
        ++ resultSegForehead ++ m.face_width_top
        ++ resultSegCheekbone ++ m.face_width_middle
        ++ resultSegJawline ++ m.face_width_bottom
        ++ resultSegWidthHeight ++ m.width_to_height_ratio
        ++ resultSegConfidence ++ toString (mathRound (data.confidence * 100)) ++ "%"
        ++ resultSegTail, ?_⟩
    simp [successHTML, strAppendAssoc]
  · refine ⟨resultSegHead ++ data.image_with_landmarks ++ resultSegShape
        ++ toUpperCase shape
        ++ resultSegDescription ++ data.description
        ++ resultSegHeight ++ m.face_height
        ++ resultSegForehead ++ m.face_width_top
        ++ resultSegCheekbone ++ m.face_width_middle
        ++ resultSegJawline ++ m.face_width_bottom
        ++ resultSegWidthHeight ++ m.width_to_height_ratio
        ++ resultSegConfidence,
      resultSegTail, ?_⟩
    simp [successHTML, strAppendAssoc]

/-- Witness for C2: the spec's example response rendered from the fresh
page. -/
theorem successRenderShowsShapeAndConfidence_witness :
    (∃ ui2, handleAnalysisResult exData initUI = .ok ui2
      ∧ ui2.resultVisible = true
      ∧ (∃ p q, ui2.resultHTML = p ++ toUpperCase "oval" ++ q)
      ∧ (∃ p q, ui2.resultHTML
          = p ++ (toString (mathRound (exData.confidence * 100)) ++ "%") ++ q))
    ∧ toString (mathRound ((873 : Rat)/1000 * 100)) = "87"
    ∧ toUpperCase "oval" = "OVAL" :=
  successRenderShowsShapeAndConfidence exData initUI "oval" exM
    (by decide) (by decide) rfl rfl

/-- C1 counterexample: a response whose `error` field is present but equal
to the empty string is not displayed — the handler falls through to the
`success` check and displays the `message` instead, refuting "if the
response's error field is present it displays exactly that error string". -/
theorem errorPrecedenceCounterexample :
    c1Data.error = JSValue.str ""
    ∧ (settleResponse (.response 200 (.ok c1Data)) initUI).errorText = "from message"
    ∧ (settleResponse (.response 200 (.ok c1Data)) initUI).errorVisible = true
    ∧ "from message" ≠ "" := by
  exact ⟨rfl, rfl, rfl, by decide⟩

/-- C1 amended: the handler's precedence is decided by JavaScript
truthiness, not field presence — a truthy `error` is displayed verbatim;
otherwise a falsy `success` displays the `message` when truthy and the
fixed default text when the `message` is absent or falsy; only otherwise is
the success presentation rendered (and `showError` really does put its
argument on the visible error region). -/
theorem errorPrecedenceByTruthiness (data : AnalysisData) (ui : UIState) :
    (truthy data.error = true →
      handleAnalysisResult data ui
        = .ok (showError (jsToDisplay data.error) (hideLoading ui)))
    ∧ (truthy data.error = false → truthy data.success = false →
        truthy data.message = true →
      handleAnalysisResult data ui
        = .ok (showError (jsToDisplay data.message) (hideLoading ui)))
    ∧ (truthy data.error = false → truthy data.success = false →
        truthy data.message = false →
      handleAnalysisResult data ui
        = .ok (showError defaultAnalysisErrorMsg (hideLoading ui)))
    ∧ (truthy data.error = false → truthy data.success = true →
      ∀ shape m, data.face_shape = some shape → data.measurements = some m →
        handleAnalysisResult data ui = .ok
          { hideLoading ui with
            resultHTML := successHTML data.image_with_landmarks shape data.description
              m data.confidence
            resultVisible := true })
    ∧ (∀ msg u, (showError msg u).errorText = msg
        ∧ (showError msg u).errorVisible = true) := by
  refine ⟨fun he => ?_, fun he hs hm => ?_, fun he hs hm => ?_,
    fun he hs shape m hfs hmm => ?_, fun msg u => ⟨rfl, rfl⟩⟩
  · simp [handleAnalysisResult, he]
  · simp [handleAnalysisResult, he, hs, hm]
  · simp [handleAnalysisResult, he, hs, hm]
  · simp [handleAnalysisResult, he, hs, hfs, hmm]

/-- Witness for C1 (amended): a truthy `error` string is displayed
verbatim. -/
theorem errorPrecedenceByTruthiness_witness :
    handleAnalysisResult boomData initUI
      = .ok (showError "boom" (hideLoading initUI)) :=
  (errorPrecedenceByTruthiness boomData initUI).1 rfl

/-- C5 counterexample: the transport layer never inspects the HTTP status —
an HTTP 500 response carrying well-formed success JSON is rendered as a
success, and the transport-error banner is not shown, refuting "if the HTTP
response status is non-2xx ... the transport client rejects with a
transport error that reaches the error banner". -/
theorem non2xxNotRejectedCounterexample :
    (settleResponse (.response 500 (.ok exData)) (showLoading initUI)).resultVisible = true
    ∧ (settleResponse (.response 500 (.ok exData)) (showLoading initUI)).errorVisible = false
    ∧ (settleResponse (.response 500 (.ok exData)) (showLoading initUI)).errorText
        ≠ transportErrorMsg := by
  exact ⟨rfl, rfl, by decide⟩

/-- C5 amended: a network failure or a malformed JSON body reaches the
error banner with the transport message, the HTTP status code is ignored
entirely (a non-2xx response with a well-formed body is handled exactly
like a 200), and settling a response never issues a new request (no
automatic retry). -/
theorem transportFailuresReachBanner (ui : UIState) (s : SysState)
    (o : HttpOutcome) (status : Nat) (data : AnalysisData) :
    (settleResponse .networkFailure ui).errorVisible = true
    ∧ (settleResponse .networkFailure ui).errorText = transportErrorMsg
    ∧ (settleResponse (.response status .malformed) ui).errorVisible = true
    ∧ (settleResponse (.response status .malformed) ui).errorText = transportErrorMsg
    ∧ settleResponse (.response status (.ok data)) ui
        = settleResponse (.response 200 (.ok data)) ui
    ∧ (step s (.settle o)).sent = s.sent := by
  refine ⟨rfl, rfl, rfl, rfl, rfl, ?_⟩
  simp only [step]
  split <;> rfl

/-- C6 counterexample: capturing from a video that reports zero dimensions
does not fail — `capturePhoto` returns the degenerate data URI "data:,"
(the value `canvas.toDataURL` yields for a zero-area canvas) and the click
handler submits it to `/analyze` as a normal camera payload. -/
theorem zeroDimCaptureCounterexample :
    capturePhoto zeroVideo = "data:,"
    ∧ (step sysCam (.capturePhotoClick zeroVideo)).sent
        = [{ url := "/analyze", method := "POST",
             body := .urlencoded "image_data=data%3A%2C" }]
    ∧ (step sysCam (.capturePhotoClick zeroVideo)).pending = 1 := by
  exact ⟨rfl, by decide, rfl⟩

/-- C6 amended: for a capture session whose video reports zero usable
dimensions, the frame capture deterministically produces the degenerate
payload "data:," — no failure is raised — and the capture click submits
that payload to `/analyze`. -/
theorem zeroDimCaptureProducesDegeneratePayload (v : VideoState) (s : SysState)
    (hdim : v.videoWidth = 0 ∨ v.videoHeight = 0)
    (hc : s.ui.isCameraActive = true) :
    capturePhoto v = "data:,"
    ∧ (step s (.capturePhotoClick v)).sent
        = s.sent ++ [{ url := "/analyze", method := "POST",
                       body := .urlencoded ("image_data=" ++ encodeURIComponent "data:,") }] := by
  have h1 : capturePhoto v = "data:," := by
    unfold capturePhoto
    rw [if_pos hdim]
  exact ⟨h1, by simp [step, hc, processImageData, h1]⟩

/-- Witness for C6 (amended): the not-yet-streaming video on the
camera-active page. -/
theorem zeroDimCaptureProducesDegeneratePayload_witness :
    capturePhoto zeroVideo = "data:,"
    ∧ (step sysCam (.capturePhotoClick zeroVideo)).sent
        = sysCam.sent ++ [{ url := "/analyze", method := "POST",
                            body := .urlencoded ("image_data=" ++ encodeURIComponent "data:,") }] :=
  zeroDimCaptureProducesDegeneratePayload zeroVideo sysCam (Or.inl rfl) (by decide)

/-- Every settlement lands in one of two shapes: an error banner via
`showError`, or the success panel over the spinner-hidden state. -/
theorem settleResponse_cases (o : HttpOutcome) (ui : UIState) :
    (∃ msg, settleResponse o ui = showError msg ui)
    ∨ (∃ html, settleResponse o ui
        = { hideLoading ui with resultHTML := html, resultVisible := true }) := by
  rcases o with _ | ⟨status, body⟩
  · exact .inl ⟨transportErrorMsg, rfl⟩
  rcases body with _ | data
  · exact .inl ⟨transportErrorMsg, rfl⟩
  cases hte : truthy data.error
  · cases hts : truthy data.success
    · refine .inl ⟨if truthy data.message then jsToDisplay data.message
        else defaultAnalysisErrorMsg, ?_⟩
      simp [settleResponse, handleAnalysisResult, hte, hts, showError, hideLoading]
    · cases hfs : data.face_shape with
      | none =>
        refine .inl ⟨transportErrorMsg, ?_⟩
        simp [settleResponse, handleAnalysisResult, hte, hts, hfs]
      | some shape =>
        cases hm : data.measurements with
        | none =>
          refine .inl ⟨transportErrorMsg, ?_⟩
          simp [settleResponse, handleAnalysisResult, hte, hts, hfs, hm]
        | some m =>
          refine .inr ⟨successHTML data.image_with_landmarks shape data.description
            m data.confidence, ?_⟩
          simp [settleResponse, handleAnalysisResult, hte, hts, hfs, hm]
  · refine .inl ⟨jsToDisplay data.error, ?_⟩
    simp [settleResponse, handleAnalysisResult, hte, showError, hideLoading]

/-- C4 counterexample: render a successful analysis (result region visible),
then toggle the camera and have `getUserMedia` be denied — a settled
camera-acquisition failure after which the error region AND the result
region are both visible, refuting "exactly one of the result region and the
error region is visible ... in every reachable state". -/
theorem regionExclusivityCounterexample :
    (run c4Events).ui.resultVisible = true
    ∧ (run c4Events).ui.errorVisible = true
    ∧ (run c4Events).ui.errorText = cameraDeniedMsg
    ∧ (run c4Events).ui.loadingVisible = false := by
  exact ⟨rfl, rfl, rfl, rfl⟩

/-- C4 amended: after any settled network operation the loading region is
hidden, and when the response settles into a state whose error and result
regions are both hidden (which `showLoading` arranges at submission),
exactly one of the result and error regions is visible afterwards; a
settled camera-acquisition failure shows the error region and hides the
spinner but leaves the result region exactly as it was, so the four regions
are not mutually exclusive in every reachable state. -/
theorem settledRegionsConditionalExclusive (o : HttpOutcome) (ui : UIState)
    (s : SysState) (he : ui.errorVisible = false) (hr : ui.resultVisible = false)
    (hc : s.ui.isCameraActive = false) :
    (settleResponse o ui).loadingVisible = false
    ∧ ((settleResponse o ui).errorVisible = !(settleResponse o ui).resultVisible)
    ∧ (step s (.captureToggle .denied)).ui.loadingVisible = false
    ∧ (step s (.captureToggle .denied)).ui.errorVisible = true
    ∧ (step s (.captureToggle .denied)).ui.resultVisible = s.ui.resultVisible := by
  have hcase := settleResponse_cases o ui
  refine ⟨?_, ?_, ?_, ?_, ?_⟩
  · rcases hcase with ⟨msg, hmsg⟩ | ⟨html, hhtml⟩
    · rw [hmsg]; rfl
    · rw [hhtml]; rfl
  · rcases hcase with ⟨msg, hmsg⟩ | ⟨html, hhtml⟩
    · rw [hmsg]; simp [showError, hideLoading, hr]
    · rw [hhtml]; simp [hideLoading, he]
  · simp [step, hc, showError, hideLoading]
  · simp [step, hc, showError, hideLoading]
  · simp [step, hc, showError, hideLoading]

/-- Witness for C4 (amended): a network failure settling from the loading
state of the fresh page, and a denied camera toggle from the fresh page. -/
theorem settledRegionsConditionalExclusive_witness :
    (settleResponse .networkFailure (showLoading initUI)).loadingVisible = false
    ∧ ((settleResponse .networkFailure (showLoading initUI)).errorVisible
        = !(settleResponse .networkFailure (showLoading initUI)).resultVisible)
    ∧ (step initSys (.captureToggle .denied)).ui.loadingVisible = false
    ∧ (step initSys (.captureToggle .denied)).ui.errorVisible = true
    ∧ (step initSys (.captureToggle .denied)).ui.resultVisible = initSys.ui.resultVisible :=
  settledRegionsConditionalExclusive .networkFailure (showLoading initUI) initSys
    rfl rfl rfl

end Face








